import Mathlib

/-!
Verification of the auto-debug-ai team orchestration core.

This file gives a shallow embedding of the repository's coordination logic:

* `src/teams/debug_team.py` — `DebugTeam` (`_create_team`, `solve_bug`,
  `_create_task_context`, `_prepare_initial_message`, `_run_streaming`,
  `_run_batch`, `_extract_plan`, `_extract_patch`, `_extract_test_results`,
  `_extract_solution`);
* `src/agents/debug_agents.py` — `TaskContext` and the agent hand-off
  declarations;
* `src/memory/__init__.py` — `MemoryManager.search_similar_issues`,
  `MemoryManager.store_solution`;
* `src/tools/memory_tools.py` — `MemorySearchTool.run`, `MemoryStoreTool.run`.

Python strings are Lean `String`s (processed as `List Char` internally);
machine floats used only as similarity scores are modelled as `Rat`
(only comparison and subtraction matter to the claims); external effects
(model calls, the chroma store, `uuid4`, `datetime.utcnow`) are inputs:
fallible external calls are `Except String α` values, clocks and fresh ids
are explicit `String` parameters.  Messages streamed by the coordination
primitive are `Option String`: `some content` for a message carrying a
`content` attribute, `none` otherwise (the `hasattr(message, 'content')`
guard in the source).
-/

set_option maxRecDepth 100000

namespace AutoDebug

/-! ### Python string primitives -/

/-- Python `str.split('\n')`: helper collecting the current segment. -/
def splitNlAux : List Char → List Char → List (List Char)
  | [], acc => [acc.reverse]
  | c :: cs, acc =>
    if c = '\n' then acc.reverse :: splitNlAux cs [] else splitNlAux cs (c :: acc)

/-- Python `content.split('\n')`. -/
def splitNl (s : String) : List (List Char) := splitNlAux s.toList []

/-- The whitespace characters stripped by Python's default `str.strip()`. -/
def isPySpace (c : Char) : Bool :=
  c = ' ' || c = '\t' || c = '\n' || c = '\r' || c = '\x0b' || c = '\x0c'

/-- Python `line.strip()` (default whitespace stripping, both ends). -/
def pyStrip (l : List Char) : List Char :=
  ((l.dropWhile isPySpace).reverse.dropWhile isPySpace).reverse

/-- Python `s.lstrip(cs)`: drop leading characters belonging to `cs`. -/
def pyLstrip (cs : List Char) (l : List Char) : List Char :=
  l.dropWhile (fun c => cs.contains c)

/-- Python substring test `pat in l` over character lists. -/
def containsSubList (pat : List Char) : List Char → Bool
  | [] => pat.isEmpty
  | c :: t => pat.isPrefixOf (c :: t) || containsSubList pat t

/-- Python substring test `pat in s` for strings. -/
def containsSub (s pat : String) : Bool := containsSubList pat.toList s.toList

/-! ### Task context (`TaskContext`, src/agents/debug_agents.py lines 34-44) -/

/-- A `{"content": ..., "timestamp": ...}` record as produced by
`_extract_patch` and `_extract_test_results`. -/
structure StampedContent where
  content : String
  timestamp : String
deriving Repr, DecidableEq

/-- `TaskContext` (pydantic model), field for field. -/
structure TaskContext where
  task_id : String
  bug_report : String
  plan : Option (List String) := none
  located_files : Option (List String) := none
  proposed_patches : Option (List StampedContent) := none
  test_results : Option StampedContent := none
  critique : Option String := none
  iteration : Int := 0
  max_iterations : Int := 5
deriving Repr, DecidableEq

/-! ### Marker extraction (`DebugTeam._extract_*`, debug_team.py lines 287-336) -/

/-- The `"PLAN:"` marker. -/
def planMarker : List Char := "PLAN:".toList

/-- `line.strip().startswith(('-', '*', '1.', '2.', '3.'))`. -/
def isPlanItem (l : List Char) : Bool :=
  "-".toList.isPrefixOf l || "*".toList.isPrefixOf l ||
  "1.".toList.isPrefixOf l || "2.".toList.isPrefixOf l || "3.".toList.isPrefixOf l

/-- The character set of `line.strip().lstrip('-*123456789. ')`. -/
def planStripChars : List Char := "-*123456789. ".toList

/-- The loop of `_extract_plan`: walk the lines with the `in_plan` flag,
collecting stripped list items; `break` returns the plan gathered so far. -/
def extract_plan_aux : List (List Char) → Bool → List (List Char)
  | [], _ => []
  | line :: rest, inPlan =>
    if containsSubList planMarker line then extract_plan_aux rest true
    else if inPlan && !(pyStrip line).isEmpty then
      if isPlanItem (pyStrip line) then
        pyLstrip planStripChars (pyStrip line) :: extract_plan_aux rest inPlan
      else if !(" ".toList.isPrefixOf line) then []
      else extract_plan_aux rest inPlan
    else extract_plan_aux rest inPlan

/-- `DebugTeam._extract_plan`. -/
def extract_plan (content : String) : List String :=
  (extract_plan_aux (splitNl content) false).map String.mk

/-- `DebugTeam._extract_patch`: raw content plus the current timestamp. -/
def extract_patch (now content : String) : StampedContent :=
  { content := content, timestamp := now }

/-- `DebugTeam._extract_test_results`: raw content plus the current timestamp. -/
def extract_test_results (now content : String) : StampedContent :=
  { content := content, timestamp := now }

/-- `any(keyword in content for keyword in ["PATCH:", "FIX:", "SOLUTION:"])`. -/
def solution_keyword_in (content : String) : Bool :=
  containsSub content "PATCH:" || containsSub content "FIX:" ||
  containsSub content "SOLUTION:"

/-- The solution record built by `_extract_solution`. -/
structure Solution where
  description : String
  patches : List String
  timestamp : String
deriving Repr, DecidableEq

/-- `DebugTeam._extract_solution`: concatenate the contents of every message
carrying a solution keyword, in transcript order. -/
def extract_solution (now : String) (messages : List (Option String)) : Solution :=
  { description := "Combined solution from agent team"
  , patches := (messages.filterMap id).filter solution_keyword_in
  , timestamp := now }

/-! ### Run results and the run drivers (debug_team.py lines 89-168, 221-285) -/

/-- The result dictionary of a run.  The Python code returns plain dicts whose
key sets differ by code path, so every key that is absent on some path is an
`Option` here: the streaming path fills `solution`, `messages`,
`task_context`; the batch path fills `solution`, `batch_result` (the key
`"result"`), `task_context`; the exception path of `solve_bug` fills only
`error` and `duration`. -/
structure RunResult where
  success : Bool
  solution : Option Solution := none
  messages : Option (List (Option String)) := none
  batch_result : Option (List String) := none
  task_context : Option TaskContext := none
  task_id : String
  error : Option String := none
  duration : Option String := none
deriving Repr, DecidableEq

/-- The mutable state threaded through `_run_streaming`'s loop. -/
structure StreamState where
  ctx : TaskContext
  success : Bool
  solution : Option Solution
deriving Repr, DecidableEq

/-- One iteration of `_run_streaming`'s message loop: the `if/elif` chain over
the marker substrings.  `seen` is the `messages` list accumulated so far
(the current message included, since the source appends before matching). -/
def stream_step (now : String) (seen : List (Option String)) (st : StreamState)
    (m : Option String) : StreamState :=
  match m with
  | none => st
  | some content =>
    if containsSub content "PLAN:" then
      { st with ctx := { st.ctx with plan := some (extract_plan content) } }
    else if containsSub content "PATCH:" then
      let ps := st.ctx.proposed_patches.getD [] ++ [extract_patch now content]
      { st with ctx := { st.ctx with proposed_patches := some ps } }
    else if containsSub content "TEST_RESULTS:" then
      { st with ctx := { st.ctx with test_results := some (extract_test_results now content) } }
    else if containsSub content "TASK_COMPLETE" then
      { st with success := true, solution := some (extract_solution now seen) }
    else st

/-- The whole message loop of `_run_streaming`. -/
def run_streaming_aux (now : String) :
    List (Option String) → List (Option String) → StreamState → StreamState
  | _, [], st => st
  | seen, m :: rest, st =>
    run_streaming_aux now (seen ++ [m]) rest (stream_step now (seen ++ [m]) st m)

/-- `DebugTeam._run_streaming` over a given transcript of streamed messages. -/
def run_streaming (now : String) (tc : TaskContext) (msgs : List (Option String)) :
    RunResult :=
  let st := run_streaming_aux now [] msgs { ctx := tc, success := false, solution := none }
  { success := st.success
  , solution := st.solution
  , messages := some msgs
  , task_context := some st.ctx
  , task_id := st.ctx.task_id }

/-- `DebugTeam._run_batch`: each element of `msgs` is the `str(message)`
rendering of one message of the batch result (which includes its content). -/
def run_batch (now : String) (tc : TaskContext) (msgs : List String) : RunResult :=
  let success := msgs.any (fun m => containsSub m "TASK_COMPLETE")
  { success := success
  , solution := if success then some (extract_solution now (msgs.map some)) else none
  , batch_result := some msgs
  , task_context := some tc
  , task_id := tc.task_id }

/-- Outcome of the `try` body of `solve_bug`: either it ran to the `return
result` statement with result `r`, or some step inside it (metrics, memory
search, team creation, the run itself, storing the solution) raised an
exception whose `str(e)` is `e`. -/
inductive RunAttempt where
  | ok (r : RunResult)
  | exn (e : String)
deriving Repr, DecidableEq

/-- `DebugTeam.solve_bug`'s driver boundary: the `except Exception` handler
converts any exception raised inside the `try` body into a failure dictionary
(`success=False`, `error=str(e)`, the task id, the elapsed duration); a normal
completion returns the run result unchanged. -/
def solve_bug (dur : String) (tc : TaskContext) (attempt : RunAttempt) : RunResult :=
  match attempt with
  | .ok r => r
  | .exn e =>
    { success := false, task_id := tc.task_id, error := some e, duration := some dur }

/-! ### Memory search results and the memory bridge
(src/tools/memory_tools.py lines 109-216, src/memory/__init__.py) -/

/-- One row of the chroma `collection.query` answer (parallel `ids`,
`documents`, `metadatas`, `distances` entries at one index). -/
structure RawHit where
  id : String
  document : String
  metadata : String
  distance : Rat
deriving Repr, DecidableEq

/-- One formatted search result (`id`, `content`, `metadata`, `similarity`).
`metadata` is an `Option` because `_prepare_initial_message` guards on
`'metadata' in solution`; the search tool always fills it. -/
structure Hit where
  id : String
  content : String
  metadata : Option String
  similarity : Rat
deriving Repr, DecidableEq

/-- The `MemorySearchResult` payload together with the `TaskResult.error`
field set by the tool's exception handler. -/
structure SearchToolOutput where
  results : List Hit
  total_results : Nat
  error : Option String := none
deriving Repr, DecidableEq

/-- `MemorySearchTool.run`: on a successful store query, keep the hits whose
cosine similarity `1 - distance` reaches the threshold; any exception is
caught and converted to an empty result carrying the error text. -/
def memory_search_run (threshold : Rat) (raw : Except String (List RawHit)) :
    SearchToolOutput :=
  match raw with
  | .error e => { results := [], total_results := 0, error := some e }
  | .ok hits =>
    let formatted := hits.filterMap fun h =>
      if threshold ≤ 1 - h.distance then
        some { id := h.id, content := h.document, metadata := some h.metadata
             , similarity := 1 - h.distance }
      else none
    { results := formatted, total_results := formatted.length }

/-- `MemoryManager.search_similar_issues`: the `try` body either raises (any
exception is caught and turned into `None`) or produces the tool output; an
output with an empty (falsy) result list also yields `None`. -/
def search_similar_issues (body : Except String SearchToolOutput) :
    Option (List Hit) :=
  match body with
  | .error _ => none
  | .ok out => if out.results.isEmpty then none else some out.results

/-- The `MemoryStoreResult` payload with the tool-level error field. -/
structure StoreToolOutput where
  memory_id : String
  success : Bool
  error : Option String := none
deriving Repr, DecidableEq

/-- `MemoryStoreTool.run`: a successful `collection.add` yields the fresh
memory id and `success=True`; any exception is caught and converted to an
unsuccessful output carrying the error text. -/
def memory_store_run (raw : Except String Unit) (mem_id : String) : StoreToolOutput :=
  match raw with
  | .error e => { memory_id := "", success := false, error := some e }
  | .ok _ => { memory_id := mem_id, success := true }

/-- `MemoryManager.store_solution`: any exception in the `try` body is caught
and turned into `False`; otherwise the tool output's success flag is returned. -/
def store_solution (body : Except String StoreToolOutput) : Bool :=
  match body with
  | .error _ => false
  | .ok out => out.success

/-! ### Initial prompt composition (`_prepare_initial_message`, lines 192-219) -/

/-- One `### Solution i (Similarity: ...)` block.  `fmt_sim` abstracts
Python's `f"{x:.2f}"` float rendering and `json_dumps` abstracts
`json.dumps(metadata, indent=2)`; the claims hold for every rendering. -/
def sol_block (fmt_sim : Rat → String) (json_dumps : String → String)
    (i : Nat) (s : Hit) : String :=
  "\n### Solution " ++ toString i ++ " (Similarity: " ++ fmt_sim s.similarity ++ ")\n"
  ++ s.content ++ "\n"
  ++ (match s.metadata with
      | some md => "Context: " ++ json_dumps md ++ "\n"
      | none => "")

/-- The `for i, solution in enumerate(similar_solutions[:3], 1)` loop. -/
def sol_blocks (fmt_sim : Rat → String) (json_dumps : String → String) :
    Nat → List Hit → String
  | _, [] => ""
  | i, s :: rest => sol_block fmt_sim json_dumps i s ++ sol_blocks fmt_sim json_dumps (i + 1) rest

/-- The fixed instructional suffix appended to every initial message. -/
def instructions_text : String :=
  "\n## Instructions\nPlease analyze this bug report and work together to create a fix. Start by creating a detailed plan, then locate the relevant code, implement a fix, test it, and validate the solution."

/-- `DebugTeam._prepare_initial_message`.  `similar_solutions` is `none` for
Python `None`; `some []` (an empty list, falsy in Python) also skips the
similar-solutions section. -/
def prepare_initial_message (fmt_sim : Rat → String) (json_dumps : String → String)
    (bug_report : String) (tc : TaskContext) (similar_solutions : Option (List Hit)) :
    String :=
  let base := "\n## Bug Report\n" ++ bug_report ++ "\n\n## Task ID: " ++ tc.task_id ++ "\n"
  let with_sols :=
    match similar_solutions with
    | some sols =>
      if sols.isEmpty then base
      else base ++ "\n## Similar Past Solutions\n" ++ sol_blocks fmt_sim json_dumps 1 (sols.take 3)
    | none => base
  with_sols ++ instructions_text

/-- The section header whose absence claim C9 is about. -/
def sim_header : String := "Similar Past Solutions"

/-! ### Team assembly (`_create_team`, debug_team.py lines 41-87;
agent hand-off declarations, debug_agents.py) -/

/-- A configured agent: its name and its declared hand-off targets. -/
structure AgentSpec where
  name : String
  handoffs : List String
deriving Repr, DecidableEq

/-- `PlannerAgent`: `name="Planner"`, `handoffs=["Locator"]`. -/
def planner_agent : AgentSpec := ⟨"Planner", ["Locator"]⟩

/-- `LocatorAgent`: `handoffs=["Coder", "Planner"]`. -/
def locator_agent : AgentSpec := ⟨"Locator", ["Coder", "Planner"]⟩

/-- `CoderAgent`: `handoffs=["Executor", "Locator"]`. -/
def coder_agent : AgentSpec := ⟨"Coder", ["Executor", "Locator"]⟩

/-- `ExecutorAgent`: `handoffs=["Critic", "Reviewer"]` — unconditionally,
whatever the critic/reviewer toggles say. -/
def executor_agent : AgentSpec := ⟨"Executor", ["Critic", "Reviewer"]⟩

/-- `CriticAgent`: `handoffs=["Coder", "Planner"]`. -/
def critic_agent : AgentSpec := ⟨"Critic", ["Coder", "Planner"]⟩

/-- `ReviewerAgent`: `handoffs=["Coder"]`. -/
def reviewer_agent : AgentSpec := ⟨"Reviewer", ["Coder"]⟩

/-- `TeamConfig` (src/config.py): the fields `_create_team` reads. -/
structure TeamConfig where
  max_rounds : Int := 20
  enable_critic : Bool := true
  enable_reviewer : Bool := true
  coordination_mode : String := "swarm"
deriving Repr, DecidableEq

/-- `DebugAgentFactory.create_all_agents`: the agent dictionary, keyed by the
lower-case role name, with critic and reviewer present per their toggles. -/
def create_all_agents (cfg : TeamConfig) : List (String × AgentSpec) :=
  [("planner", planner_agent), ("locator", locator_agent),
   ("coder", coder_agent), ("executor", executor_agent)]
  ++ (if cfg.enable_critic then [("critic", critic_agent)] else [])
  ++ (if cfg.enable_reviewer then [("reviewer", reviewer_agent)] else [])

/-- The `agent_order` list built in `_create_team`. -/
def agent_order (cfg : TeamConfig) : List String :=
  ["planner", "locator", "coder", "executor"]
  ++ (if cfg.enable_critic then ["critic"] else [])
  ++ (if cfg.enable_reviewer then ["reviewer"] else [])

/-- The assembled team: coordination mode, participants in order, and the one
termination condition actually wired in (`MaxMessageTermination(max_rounds)`,
i.e. `termination_conditions[0]`). -/
structure Team where
  mode : String
  participants : List AgentSpec
  max_messages : Int
deriving Repr, DecidableEq

/-- Python `agent_name in self.agents` / `self.agents[agent_name]`. -/
def lookup_agent (agents : List (String × AgentSpec)) (n : String) : Option AgentSpec :=
  (agents.find? (fun p => p.1 == n)).map (fun p => p.2)

/-- `DebugTeam._create_team`: assemble the participant list in fixed order and
wrap it in a `Swarm` (default) or `RoundRobinGroupChat`, always passing only
the max-rounds termination condition.  There is no validation of hand-off
targets and no failure path. -/
def create_team (cfg : TeamConfig) (agents : List (String × AgentSpec))
    (mode_arg : Option String) : Team :=
  let mode := mode_arg.getD cfg.coordination_mode
  { mode := if mode == "round_robin" then "round_robin" else "swarm"
  , participants := (agent_order cfg).filterMap (lookup_agent agents)
  , max_messages := cfg.max_rounds }

/-- The names of a team's participants. -/
def team_names (t : Team) : List String := t.participants.map AgentSpec.name

/-- Whether every declared hand-off target of every participant names a
participant of the team. -/
def handoff_closed (t : Team) : Bool :=
  t.participants.all (fun a => a.handoffs.all (fun h => (team_names t).contains h))

/-! ### Task-context creation (`_create_task_context`, debug_team.py 170-190) -/

/-- One entry of the caller-supplied `context` dict, as consumed by the
`for key, value in context.items(): if hasattr(task_context, key):
setattr(task_context, key, value)` loop: a key naming one of the nine
`TaskContext` fields together with its value, or a key naming no field
(skipped by the `hasattr` guard). -/
inductive CtxAssign where
  | taskId (v : String)
  | bugReport (v : String)
  | planSteps (v : Option (List String))
  | locatedFiles (v : Option (List String))
  | proposedPatches (v : Option (List StampedContent))
  | testResults (v : Option StampedContent)
  | critiqueText (v : Option String)
  | iterationCount (v : Int)
  | maxIterations (v : Int)
  | unknownKey (k : String)
deriving Repr, DecidableEq

/-- One `setattr(task_context, key, value)` (no-op for an unknown key). -/
def apply_assign (tc : TaskContext) : CtxAssign → TaskContext
  | .taskId v => { tc with task_id := v }
  | .bugReport v => { tc with bug_report := v }
  | .planSteps v => { tc with plan := v }
  | .locatedFiles v => { tc with located_files := v }
  | .proposedPatches v => { tc with proposed_patches := v }
  | .testResults v => { tc with test_results := v }
  | .critiqueText v => { tc with critique := v }
  | .iterationCount v => { tc with iteration := v }
  | .maxIterations v => { tc with max_iterations := v }
  | .unknownKey _ => tc

/-- `DebugTeam._create_task_context`: build the context from a fresh uuid, the
bug report and `settings.team.max_rounds`, then replay every caller-supplied
assignment over it (`if context:` skips `None` and the empty dict, but the
empty replay is a no-op anyway). -/
def create_task_context (fresh_id : String) (max_rounds : Int) (bug_report : String)
    (context : Option (List CtxAssign)) : TaskContext :=
  let base : TaskContext :=
    { task_id := fresh_id, bug_report := bug_report, max_iterations := max_rounds }
  match context with
  | none => base
  | some l => l.foldl apply_assign base

/-- The value of the last assignment to a given field selected by `f`, if any:
the value that survives the `setattr` replay. -/
def last_assign {α : Type} (f : CtxAssign → Option α) : List CtxAssign → Option α
  | [] => none
  | a :: t =>
    match last_assign f t with
    | some v => some v
    | none => f a

/-- Selector for `task_id` assignments. -/
def assign_task_id : CtxAssign → Option String
  | .taskId v => some v
  | _ => none

/-- Selector for `bug_report` assignments. -/
def assign_bug_report : CtxAssign → Option String
  | .bugReport v => some v
  | _ => none

/-- Selector for `plan` assignments. -/
def assign_plan : CtxAssign → Option (Option (List String))
  | .planSteps v => some v
  | _ => none

/-- Selector for `located_files` assignments. -/
def assign_located_files : CtxAssign → Option (Option (List String))
  | .locatedFiles v => some v
  | _ => none

/-- Selector for `proposed_patches` assignments. -/
def assign_proposed_patches : CtxAssign → Option (Option (List StampedContent))
  | .proposedPatches v => some v
  | _ => none

/-- Selector for `test_results` assignments. -/
def assign_test_results : CtxAssign → Option (Option StampedContent)
  | .testResults v => some v
  | _ => none

/-- Selector for `critique` assignments. -/
def assign_critique : CtxAssign → Option (Option String)
  | .critiqueText v => some v
  | _ => none

/-- Selector for `iteration` assignments. -/
def assign_iteration : CtxAssign → Option Int
  | .iterationCount v => some v
  | _ => none

/-- Selector for `max_iterations` assignments. -/
def assign_max_iterations : CtxAssign → Option Int
  | .maxIterations v => some v
  | _ => none

/-! ### Claim-side definitions

These definitions follow the words of spec claims (for refutation or as the
amended statement), not the source; each doc comment says which. -/

/-- From claim C7's words: a "numeric-dot prefix" — one or more digits
followed by a dot. -/
def claimNumericDot (l : List Char) : Bool :=
  !(l.takeWhile Char.isDigit).isEmpty &&
    (l.drop (l.takeWhile Char.isDigit).length).head? = some '.'

/-- From claim C7's words: a line beginning with a list-item prefix
(dash, asterisk, or any numeric-dot prefix). -/
def claimItem (l : List Char) : Bool :=
  "-".toList.isPrefixOf l || "*".toList.isPrefixOf l || claimNumericDot l

/-- From claim C7's words: the line stripped of its list-item prefix. -/
def claimStrip (l : List Char) : List Char :=
  if "-".toList.isPrefixOf l || "*".toList.isPrefixOf l then
    (l.drop 1).dropWhile (fun c => c = ' ')
  else
    (l.drop ((l.takeWhile Char.isDigit).length + 1)).dropWhile (fun c => c = ' ')

/-- From claim C7's words: collect the subsequent list-item lines in order,
stopping at the first non-indented, non-list line. -/
def claimCollect : List (List Char) → List (List Char)
  | [] => []
  | line :: rest =>
    if claimItem line then claimStrip line :: claimCollect rest
    else if " ".toList.isPrefixOf line then claimCollect rest
    else []

/-- From claim C7's words: find the line containing the `PLAN:` marker and
collect from the lines after it. -/
def claimScan : List (List Char) → List (List Char)
  | [] => []
  | line :: rest =>
    if containsSubList planMarker line then claimCollect rest else claimScan rest

/-- Plan extraction as claim C7 states it. -/
def claim_extract_plan (content : String) : List String :=
  (claimScan (splitNl content)).map String.mk

/-- Amended C7, collection phase (after a line containing `PLAN:` has been
seen): a line containing `PLAN:` is skipped; a blank line is skipped; a line
whose stripped form begins with `-`, `*`, `1.`, `2.` or `3.` is collected
after dropping every leading character among `-*123456789. `; any other line
beginning with a space is skipped; any other line stops the collection. -/
def specCollect : List (List Char) → List (List Char)
  | [] => []
  | line :: rest =>
    if containsSubList planMarker line then specCollect rest
    else if (pyStrip line).isEmpty then specCollect rest
    else if isPlanItem (pyStrip line) then
      pyLstrip planStripChars (pyStrip line) :: specCollect rest
    else if " ".toList.isPrefixOf line then specCollect rest
    else []

/-- Amended C7, scanning phase: skip lines until one contains `PLAN:`, then
collect from the rest; no such line means an empty plan. -/
def specScan : List (List Char) → List (List Char)
  | [] => []
  | line :: rest =>
    if containsSubList planMarker line then specCollect rest else specScan rest

/-- Plan extraction as amended claim C7 states it. -/
def spec_extract_plan (content : String) : List String :=
  (specScan (splitNl content)).map String.mk

/-- Amended C1: the streaming driver's success branch fires for a message
content exactly when the content contains `TASK_COMPLETE` and none of the
earlier markers of the `if/elif` chain (`PLAN:`, `PATCH:`, `TEST_RESULTS:`). -/
def complete_trigger (c : String) : Bool :=
  !containsSub c "PLAN:" && !containsSub c "PATCH:" &&
  !containsSub c "TEST_RESULTS:" && containsSub c "TASK_COMPLETE"

/-- Claim C5's well-formedness of an initial context. -/
def well_formed (tc : TaskContext) : Prop := tc.iteration ≤ tc.max_iterations

/-- The fixed text of the composed initial message before the bug report. -/
def msg_a : String := "\n## Bug Report\n"

/-- The fixed text between the bug report and the task id. -/
def msg_b : String := "\n\n## Task ID: "

/-- The fixed text after the task id (newline plus the instructions). -/
def msg_c : String := "\n" ++ instructions_text

/-! ### Substring lemmas -/

/-- The executable substring test agrees with `List.IsInfix`. -/
theorem containsSubList_iff (pat : List Char) :
    ∀ l : List Char, containsSubList pat l = true ↔ pat <:+: l := by
  intro l
  induction l with
  | nil =>
    simp only [containsSubList, List.isEmpty_iff, List.infix_nil]
  | cons c t ih =>
    simp only [containsSubList, Bool.or_eq_true, ih, List.infix_cons_iff,
      List.isPrefixOf_iff_prefix]

/-- `containsSub` agrees with `List.IsInfix` on the character lists. -/
theorem containsSub_iff (s pat : String) :
    containsSub s pat = true ↔ pat.toList <:+: s.toList :=
  containsSubList_iff pat.toList s.toList

/-- `containsSub` is `false` exactly when there is no occurrence. -/
theorem containsSub_false_iff (s pat : String) :
    containsSub s pat = false ↔ ¬ pat.toList <:+: s.toList := by
  rw [← containsSub_iff s pat]
  cases containsSub s pat <;> simp

/-- A prefix of `a ++ b` is a prefix of `a` or extends `a` into `b`. -/
theorem prefix_append_split {p a b : List Char} (h : p <+: a ++ b) :
    p <+: a ∨ ∃ q, p = a ++ q ∧ q <+: b := by
  obtain ⟨t, ht⟩ := h
  rcases List.append_eq_append_iff.mp ht with ⟨x, hx1, _⟩ | ⟨y, hy1, hy2⟩
  · exact Or.inl ⟨x, hx1.symm⟩
  · exact Or.inr ⟨y, hy1, ⟨t, hy2.symm⟩⟩

/-- Decomposition of an occurrence inside an append: the pattern occurs
inside `a`, inside `b`, or straddles the boundary (a nonempty proper split
`take k / drop k` with the head part a suffix of `a` and the tail part a
prefix of `b`). -/
theorem infix_append_split {p a b : List Char} (h : p <:+: a ++ b) :
    p <:+: a ∨ p <:+: b ∨
      ∃ k, 0 < k ∧ k < p.length ∧ p.take k <:+ a ∧ p.drop k <+: b := by
  obtain ⟨s, t, hst⟩ := h
  rw [List.append_assoc] at hst
  rcases List.append_eq_append_iff.mp hst with ⟨x, hx1, hx2⟩ | ⟨y, hy1, hy2⟩
  · -- `a = s ++ x` and `p ++ t = x ++ b`
    rcases prefix_append_split (⟨t, hx2⟩ : p <+: x ++ b) with hpx | ⟨q, hpq, hqb⟩
    · left
      obtain ⟨u, hu⟩ := hpx
      exact ⟨s, u, by rw [hx1, ← hu, List.append_assoc]⟩
    · rcases eq_or_ne x [] with hxe | hxe
      · right; left
        subst hxe
        simp only [List.nil_append] at hpq
        exact (hpq ▸ hqb).isInfix
      · rcases eq_or_ne q [] with hqe | hqe
        · left
          subst hqe
          rw [List.append_nil] at hpq
          exact ⟨s, [], by rw [hx1, hpq, List.append_nil]⟩
        · right; right
          refine ⟨x.length, List.length_pos.mpr hxe, ?_, ?_, ?_⟩
          · rw [hpq, List.length_append]
            have := List.length_pos.mpr hqe
            omega
          · rw [hpq, List.take_left]
            exact ⟨s, hx1.symm⟩
          · rw [hpq, List.drop_left]
            exact hqb
  · -- `s = a ++ y` and `b = y ++ (p ++ t)`
    right; left
    exact ⟨y, t, by rw [hy2, List.append_assoc]⟩

/-- Compose non-occurrence across an append from non-occurrence in the two
halves plus the impossibility of every straddling split. -/
theorem not_infix_append {p a b : List Char} (hA : ¬ p <:+: a) (hB : ¬ p <:+: b)
    (hS : ∀ k, k < p.length → 0 < k → ¬ (p.take k <:+ a ∧ p.drop k <+: b)) :
    ¬ p <:+: a ++ b := by
  intro h
  rcases infix_append_split h with h1 | h2 | ⟨k, hk0, hklt, hks, hkp⟩
  · exact hA h1
  · exact hB h2
  · exact hS k hklt hk0 ⟨hks, hkp⟩

/-- A nonempty prefix of a cons starts with its head. -/
theorem prefix_cons_head {q : List Char} {c : Char} {r : List Char}
    (h : q <+: c :: r) (hq : q ≠ []) : q.head? = some c := by
  obtain ⟨t, ht⟩ := h
  cases q with
  | nil => exact absurd rfl hq
  | cons x xs =>
    have hx : x = c := by
      have := congrArg List.head? ht
      simpa using this
    simp [hx]

/-- Dropping fewer than all characters leaves a nonempty list. -/
theorem drop_ne_nil {p : List Char} {k : Nat} (h : k < p.length) : p.drop k ≠ [] := by
  intro hnil
  have := List.drop_eq_nil_iff.mp hnil
  omega

/-! ### Lemmas about the composed initial message -/

/-- `String.toList` distributes over append. -/
theorem toList_append (a b : String) : (a ++ b).toList = a.toList ++ b.toList :=
  String.data_append a b

/-- With no similar solutions the composed message is exactly the fixed
header, the bug report, the fixed task-id header, the task id, and the fixed
instructional tail. -/
theorem prepare_none_eq (fmt_sim : Rat → String) (json_dumps : String → String)
    (bug : String) (tc : TaskContext) :
    prepare_initial_message fmt_sim json_dumps bug tc none
      = msg_a ++ bug ++ msg_b ++ tc.task_id ++ msg_c := by
  show ("\n## Bug Report\n" ++ bug ++ "\n\n## Task ID: " ++ tc.task_id ++ "\n")
      ++ instructions_text = msg_a ++ bug ++ msg_b ++ tc.task_id ++ msg_c
  simp only [msg_a, msg_b, msg_c, String.append_assoc]

/-- The header `Similar Past Solutions` does not occur in the composed
message when it occurs in neither the bug report nor the task id. -/
theorem no_header_in_composed {bug tid : List Char}
    (hbug : ¬ sim_header.toList <:+: bug) (htid : ¬ sim_header.toList <:+: tid) :
    ¬ sim_header.toList <:+:
        msg_a.toList ++ (bug ++ (msg_b.toList ++ (tid ++ msg_c.toList))) := by
  have step1 : ¬ sim_header.toList <:+: tid ++ msg_c.toList := by
    refine not_infix_append htid (by decide) ?_
    intro k hk hk0 hsplit
    exact (by decide :
        ∀ k, k < sim_header.toList.length → 0 < k →
          ¬ (sim_header.toList.drop k <+: msg_c.toList)) k hk hk0 hsplit.2
  have step2 : ¬ sim_header.toList <:+: msg_b.toList ++ (tid ++ msg_c.toList) := by
    refine not_infix_append (by decide) step1 ?_
    intro k hk hk0 hsplit
    exact (by decide :
        ∀ k, k < sim_header.toList.length → 0 < k →
          ¬ (sim_header.toList.take k <:+ msg_b.toList)) k hk hk0 hsplit.1
  have step3 : ¬ sim_header.toList <:+: bug ++ (msg_b.toList ++ (tid ++ msg_c.toList)) := by
    refine not_infix_append hbug step2 ?_
    intro k hk hk0 hsplit
    have hcons : msg_b.toList ++ (tid ++ msg_c.toList)
        = '\n' :: ("\n## Task ID: ".toList ++ (tid ++ msg_c.toList)) := rfl
    have hhead : (sim_header.toList.drop k).head? = some '\n' :=
      prefix_cons_head (hcons ▸ hsplit.2) (drop_ne_nil hk)
    exact (by decide :
        ∀ k, k < sim_header.toList.length → 0 < k →
          ¬ ((sim_header.toList.drop k).head? = some '\n')) k hk hk0 hhead
  refine not_infix_append (by decide) step3 ?_
  intro k hk hk0 hsplit
  exact (by decide :
      ∀ k, k < sim_header.toList.length → 0 < k →
        ¬ (sim_header.toList.take k <:+ msg_a.toList)) k hk hk0 hsplit.1

/-- The composed message depends only on the first three similar solutions. -/
theorem prepare_take3 (fmt_sim : Rat → String) (json_dumps : String → String)
    (bug : String) (tc : TaskContext) (l : List Hit) :
    prepare_initial_message fmt_sim json_dumps bug tc (some l)
      = prepare_initial_message fmt_sim json_dumps bug tc (some (l.take 3)) := by
  cases l <;> simp [prepare_initial_message, List.take_take]

/-! ### Lemmas about the streaming driver -/

/-- One streaming step sets `success` exactly when the message carries a
content whose `TASK_COMPLETE` branch of the `if/elif` chain fires. -/
theorem stream_step_success (now : String) (seen : List (Option String))
    (st : StreamState) (m : Option String) :
    (stream_step now seen st m).success
      = (st.success || (m.map complete_trigger).getD false) := by
  cases m with
  | none => simp [stream_step]
  | some c =>
    simp only [stream_step, Option.map_some', Option.getD_some]
    split_ifs with h1 h2 h3 h4 <;> simp_all [complete_trigger]

/-- One streaming step fills `solution` exactly when it sets `success`. -/
theorem stream_step_solution (now : String) (seen : List (Option String))
    (st : StreamState) (m : Option String) :
    (stream_step now seen st m).solution.isSome
      = (st.solution.isSome || (m.map complete_trigger).getD false) := by
  cases m with
  | none => simp [stream_step]
  | some c =>
    simp only [stream_step, Option.map_some', Option.getD_some]
    split_ifs with h1 h2 h3 h4 <;> simp_all [complete_trigger]

/-- No streaming step touches `iteration` or `max_iterations`. -/
theorem stream_step_counters (now : String) (seen : List (Option String))
    (st : StreamState) (m : Option String) :
    (stream_step now seen st m).ctx.iteration = st.ctx.iteration
    ∧ (stream_step now seen st m).ctx.max_iterations = st.ctx.max_iterations
    ∧ (stream_step now seen st m).ctx.task_id = st.ctx.task_id := by
  cases m with
  | none => exact ⟨rfl, rfl, rfl⟩
  | some c =>
    simp only [stream_step]
    split_ifs <;> exact ⟨rfl, rfl, rfl⟩

/-- The message loop's final `success` flag: the initial flag or some message
whose completion branch fires. -/
theorem run_streaming_aux_success (now : String) :
    ∀ (msgs seen : List (Option String)) (st : StreamState),
    (run_streaming_aux now seen msgs st).success
      = (st.success || msgs.any fun m => (m.map complete_trigger).getD false) := by
  intro msgs
  induction msgs with
  | nil => intro seen st; simp [run_streaming_aux]
  | cons m rest ih =>
    intro seen st
    simp only [run_streaming_aux, ih, stream_step_success, List.any_cons, Bool.or_assoc]

/-- The message loop's final `solution` presence matches its `success` flag
along the whole run (both change only in the completion branch). -/
theorem run_streaming_aux_solution (now : String) :
    ∀ (msgs seen : List (Option String)) (st : StreamState),
    (run_streaming_aux now seen msgs st).solution.isSome
      = (st.solution.isSome || msgs.any fun m => (m.map complete_trigger).getD false) := by
  intro msgs
  induction msgs with
  | nil => intro seen st; simp [run_streaming_aux]
  | cons m rest ih =>
    intro seen st
    simp only [run_streaming_aux, ih, stream_step_solution, List.any_cons, Bool.or_assoc]

/-- The message loop never changes `iteration`, `max_iterations` or
`task_id`. -/
theorem run_streaming_aux_counters (now : String) :
    ∀ (msgs seen : List (Option String)) (st : StreamState),
    (run_streaming_aux now seen msgs st).ctx.iteration = st.ctx.iteration
    ∧ (run_streaming_aux now seen msgs st).ctx.max_iterations = st.ctx.max_iterations
    ∧ (run_streaming_aux now seen msgs st).ctx.task_id = st.ctx.task_id := by
  intro msgs
  induction msgs with
  | nil => intro seen st; exact ⟨rfl, rfl, rfl⟩
  | cons m rest ih =>
    intro seen st
    obtain ⟨i1, i2, i3⟩ := ih (seen ++ [m]) (stream_step now (seen ++ [m]) st m)
    obtain ⟨j1, j2, j3⟩ := stream_step_counters now (seen ++ [m]) st m
    exact ⟨by rw [run_streaming_aux, i1, j1], by rw [run_streaming_aux, i2, j2],
      by rw [run_streaming_aux, i3, j3]⟩

/-- Bridge between the boolean scan over optional contents and its
existential reading. -/
theorem any_trigger_iff (msgs : List (Option String)) :
    (msgs.any fun m => (m.map complete_trigger).getD false) = true
      ↔ ∃ c, some c ∈ msgs ∧ complete_trigger c = true := by
  rw [List.any_eq_true]
  constructor
  · rintro ⟨m, hm, hf⟩
    cases m with
    | none => simp at hf
    | some c => exact ⟨c, hm, by simpa using hf⟩
  · rintro ⟨c, hc, ht⟩
    exact ⟨some c, hc, by simpa using ht⟩

/-! ### Lemmas about plan extraction -/

/-- With the `in_plan` flag set, the extraction loop is the amended
collection phase. -/
theorem extract_plan_aux_true :
    ∀ lines : List (List Char), extract_plan_aux lines true = specCollect lines := by
  intro lines
  induction lines with
  | nil => rfl
  | cons line rest ih =>
    cases h1 : containsSubList planMarker line <;>
    cases h2 : (pyStrip line).isEmpty <;>
    cases h3 : isPlanItem (pyStrip line) <;>
    cases h4 : " ".toList.isPrefixOf line <;>
      simp_all [extract_plan_aux, specCollect]

/-- With the `in_plan` flag clear, the extraction loop is the amended
scanning phase. -/
theorem extract_plan_aux_false :
    ∀ lines : List (List Char), extract_plan_aux lines false = specScan lines := by
  intro lines
  induction lines with
  | nil => rfl
  | cons line rest ih =>
    cases h1 : containsSubList planMarker line <;>
      simp_all [extract_plan_aux, specScan, extract_plan_aux_true]

/-! ### Lemmas about the `setattr` replay of `_create_task_context` -/

/-- Replaying assignments leaves `task_id` at the last assigned value, or at
the base value when the field is never assigned. -/
theorem foldl_task_id :
    ∀ (l : List CtxAssign) (base : TaskContext),
    (l.foldl apply_assign base).task_id
      = (last_assign assign_task_id l).getD base.task_id := by
  intro l
  induction l with
  | nil => intro base; rfl
  | cons a t ih =>
    intro base
    simp only [List.foldl_cons, last_assign, ih]
    cases h : last_assign assign_task_id t
    · simp only [Option.getD_none]
      cases a <;> rfl
    · simp

/-- Replaying assignments leaves `bug_report` at the last assigned value. -/
theorem foldl_bug_report :
    ∀ (l : List CtxAssign) (base : TaskContext),
    (l.foldl apply_assign base).bug_report
      = (last_assign assign_bug_report l).getD base.bug_report := by
  intro l
  induction l with
  | nil => intro base; rfl
  | cons a t ih =>
    intro base
    simp only [List.foldl_cons, last_assign, ih]
    cases h : last_assign assign_bug_report t
    · simp only [Option.getD_none]
      cases a <;> rfl
    · simp

/-- Replaying assignments leaves `plan` at the last assigned value. -/
theorem foldl_plan :
    ∀ (l : List CtxAssign) (base : TaskContext),
    (l.foldl apply_assign base).plan = (last_assign assign_plan l).getD base.plan := by
  intro l
  induction l with
  | nil => intro base; rfl
  | cons a t ih =>
    intro base
    simp only [List.foldl_cons, last_assign, ih]
    cases h : last_assign assign_plan t
    · simp only [Option.getD_none]
      cases a <;> rfl
    · simp

/-- Replaying assignments leaves `located_files` at the last assigned value. -/
theorem foldl_located_files :
    ∀ (l : List CtxAssign) (base : TaskContext),
    (l.foldl apply_assign base).located_files
      = (last_assign assign_located_files l).getD base.located_files := by
  intro l
  induction l with
  | nil => intro base; rfl
  | cons a t ih =>
    intro base
    simp only [List.foldl_cons, last_assign, ih]
    cases h : last_assign assign_located_files t
    · simp only [Option.getD_none]
      cases a <;> rfl
    · simp

/-- Replaying assignments leaves `proposed_patches` at the last assigned
value. -/
theorem foldl_proposed_patches :
    ∀ (l : List CtxAssign) (base : TaskContext),
    (l.foldl apply_assign base).proposed_patches
      = (last_assign assign_proposed_patches l).getD base.proposed_patches := by
  intro l
  induction l with
  | nil => intro base; rfl
  | cons a t ih =>
    intro base
    simp only [List.foldl_cons, last_assign, ih]
    cases h : last_assign assign_proposed_patches t
    · simp only [Option.getD_none]
      cases a <;> rfl
    · simp

/-- Replaying assignments leaves `test_results` at the last assigned value. -/
theorem foldl_test_results :
    ∀ (l : List CtxAssign) (base : TaskContext),
    (l.foldl apply_assign base).test_results
      = (last_assign assign_test_results l).getD base.test_results := by
  intro l
  induction l with
  | nil => intro base; rfl
  | cons a t ih =>
    intro base
    simp only [List.foldl_cons, last_assign, ih]
    cases h : last_assign assign_test_results t
    · simp only [Option.getD_none]
      cases a <;> rfl
    · simp

/-- Replaying assignments leaves `critique` at the last assigned value. -/
theorem foldl_critique :
    ∀ (l : List CtxAssign) (base : TaskContext),
    (l.foldl apply_assign base).critique
      = (last_assign assign_critique l).getD base.critique := by
  intro l
  induction l with
  | nil => intro base; rfl
  | cons a t ih =>
    intro base
    simp only [List.foldl_cons, last_assign, ih]
    cases h : last_assign assign_critique t
    · simp only [Option.getD_none]
      cases a <;> rfl
    · simp

/-- Replaying assignments leaves `iteration` at the last assigned value. -/
theorem foldl_iteration :
    ∀ (l : List CtxAssign) (base : TaskContext),
    (l.foldl apply_assign base).iteration
      = (last_assign assign_iteration l).getD base.iteration := by
  intro l
  induction l with
  | nil => intro base; rfl
  | cons a t ih =>
    intro base
    simp only [List.foldl_cons, last_assign, ih]
    cases h : last_assign assign_iteration t
    · simp only [Option.getD_none]
      cases a <;> rfl
    · simp

/-- Replaying assignments leaves `max_iterations` at the last assigned
value. -/
theorem foldl_max_iterations :
    ∀ (l : List CtxAssign) (base : TaskContext),
    (l.foldl apply_assign base).max_iterations
      = (last_assign assign_max_iterations l).getD base.max_iterations := by
  intro l
  induction l with
  | nil => intro base; rfl
  | cons a t ih =>
    intro base
    simp only [List.foldl_cons, last_assign, ih]
    cases h : last_assign assign_max_iterations t
    · simp only [Option.getD_none]
      cases a <;> rfl
    · simp

/-! ### The claims -/

/-- C1 (counterexample): the claim "a transcript containing `TASK_COMPLETE`
yields `success=true`, and one containing `TASK_FAILED` with no prior
`TASK_COMPLETE` yields `success=false`" is false on the streaming driver.
First input: the single message `"PLAN: done TASK_COMPLETE"` contains
`TASK_COMPLETE`, yet the run reports `success = false`, because the `elif`
chain consumes the message in the `PLAN:` branch.  Second input: the
transcript `["TASK_FAILED", "TASK_COMPLETE"]` contains `TASK_FAILED` with no
message before it containing `TASK_COMPLETE`, yet the run reports
`success = true`, because `TASK_FAILED` is never inspected by the driver. -/
theorem c1_counterexample :
    (containsSub "PLAN: done TASK_COMPLETE" "TASK_COMPLETE" = true
      ∧ (run_streaming "ts" { task_id := "task-1", bug_report := "b1" }
          [some "PLAN: done TASK_COMPLETE"]).success = false)
    ∧ (containsSub "TASK_FAILED" "TASK_COMPLETE" = false
      ∧ (run_streaming "ts" { task_id := "task-1", bug_report := "b1" }
          [some "TASK_FAILED", some "TASK_COMPLETE"]).success = true) := by
  decide

/-- C1 (amended): in streaming mode the run result has `success = true`
exactly when some message's content contains `TASK_COMPLETE` while containing
none of `PLAN:`, `PATCH:`, `TEST_RESULTS:` (the earlier branches of the
`if/elif` chain), and the solution is non-null exactly when `success` holds;
`TASK_FAILED` is never inspected, so a transcript with no such completion
message — in particular one containing only `TASK_FAILED` — yields
`success = false` with a null solution.  In batch mode `success = true`
exactly when any message's rendering contains `TASK_COMPLETE`, again with a
solution exactly on success. -/
theorem c1_amended (now : String) (tc : TaskContext) (msgs : List (Option String))
    (bmsgs : List String) :
    ((run_streaming now tc msgs).success = true
      ↔ ∃ c, some c ∈ msgs ∧ complete_trigger c = true)
    ∧ ((run_streaming now tc msgs).solution.isSome
      ↔ (run_streaming now tc msgs).success = true)
    ∧ ((run_batch now tc bmsgs).success = true
      ↔ ∃ m ∈ bmsgs, containsSub m "TASK_COMPLETE" = true)
    ∧ ((run_batch now tc bmsgs).solution.isSome
      ↔ (run_batch now tc bmsgs).success = true) := by
  have hs : (run_streaming now tc msgs).success
      = (msgs.any fun m => (m.map complete_trigger).getD false) := by
    show (run_streaming_aux now [] msgs ⟨tc, false, none⟩).success = _
    rw [run_streaming_aux_success]
    simp
  have hsol : (run_streaming now tc msgs).solution.isSome
      = (msgs.any fun m => (m.map complete_trigger).getD false) := by
    show (run_streaming_aux now [] msgs ⟨tc, false, none⟩).solution.isSome = _
    rw [run_streaming_aux_solution]
    simp
  refine ⟨?_, ?_, ?_, ?_⟩
  · rw [hs]
    exact any_trigger_iff msgs
  · rw [hsol, hs]
  · simp [run_batch, List.any_eq_true]
  · simp only [run_batch]
    cases h : bmsgs.any (fun m => containsSub m "TASK_COMPLETE") <;> simp [h]

/-- C1 (witness): a transcript whose single message is exactly
`TASK_COMPLETE` does succeed. -/
theorem c1_witness :
    (run_streaming "ts" { task_id := "t1w", bug_report := "b1w" }
      [some "TASK_COMPLETE"]).success = true :=
  (c1_amended "ts" { task_id := "t1w", bug_report := "b1w" }
      [some "TASK_COMPLETE"] []).1.mpr
    ⟨"TASK_COMPLETE", by simp, by decide⟩

/-- C2 (counterexample): for the spec's scenario — three messages, the third
being `"PLAN:\n- step one\n- step two\nTASK_COMPLETE"` — the claim asserts
`success = true`, but the code reports `success = false`: the third message
matches the `PLAN:` branch of the `elif` chain, so the `TASK_COMPLETE` branch
never fires. -/
theorem c2_counterexample :
    containsSub "PLAN:\n- step one\n- step two\nTASK_COMPLETE" "TASK_COMPLETE" = true
    ∧ (run_streaming "ts" { task_id := "task-2", bug_report := "b2" }
        [some "analyzing the bug", some "locating the code",
         some "PLAN:\n- step one\n- step two\nTASK_COMPLETE"]).success = false := by
  decide

/-- C2 (amended): in that scenario the final context does have
`plan = ["step one", "step two"]`, but the result has `success = false` and a
null solution, because the `PLAN:` branch shadows `TASK_COMPLETE` in the
`elif` chain. -/
theorem c2_amended :
    (run_streaming "ts" { task_id := "task-2", bug_report := "b2" }
        [some "analyzing the bug", some "locating the code",
         some "PLAN:\n- step one\n- step two\nTASK_COMPLETE"]).task_context
      = some { task_id := "task-2", bug_report := "b2",
               plan := some ["step one", "step two"] }
    ∧ (run_streaming "ts" { task_id := "task-2", bug_report := "b2" }
        [some "analyzing the bug", some "locating the code",
         some "PLAN:\n- step one\n- step two\nTASK_COMPLETE"]).success = false
    ∧ (run_streaming "ts" { task_id := "task-2", bug_report := "b2" }
        [some "analyzing the bug", some "locating the code",
         some "PLAN:\n- step one\n- step two\nTASK_COMPLETE"]).solution = none := by
  decide

/-- C3: any exception raised inside the `try` body of `solve_bug` (metrics,
memory search, team creation, the run, solution storage) is absorbed at the
driver boundary: the embedding of the handler is a total function that maps
an exception with text `e` to a returned result with `success = false` and
`error = e` (plus the task id and the elapsed duration, and nothing else),
and maps a normal completion to its result unchanged — nothing is re-raised
to the caller. -/
theorem c3_driver_boundary (dur e : String) (tc : TaskContext) (r : RunResult) :
    solve_bug dur tc (RunAttempt.exn e)
      = { success := false, task_id := tc.task_id, error := some e,
          duration := some dur }
    ∧ solve_bug dur tc (RunAttempt.ok r) = r :=
  ⟨rfl, rfl⟩

/-- C4: a memory failure never escapes the memory bridge: an exception inside
`search_similar_issues`'s body yields `None`, an exception inside
`store_solution`'s body yields `False`, an exception caught inside the search
tool itself (empty results with an error field) still yields `None` from the
manager, and an exception caught inside the store tool (unsuccessful output)
still yields `False` — so `solve_bug`, which consumes these total functions,
can never be aborted by a memory failure. -/
theorem c4_memory_failure (e : String) (threshold : Rat) (mem_id : String) :
    search_similar_issues (Except.error e) = none
    ∧ store_solution (Except.error e) = false
    ∧ search_similar_issues (Except.ok (memory_search_run threshold (Except.error e))) = none
    ∧ store_solution (Except.ok (memory_store_run (Except.error e) mem_id)) = false :=
  ⟨rfl, rfl, rfl, rfl⟩

/-- C5: for every initial context with `iteration ≤ max_iterations`, the
context snapshot embedded in the run result (streaming or batch) still
satisfies `iteration ≤ max_iterations` — the drivers never touch either
counter. -/
theorem c5_iteration_bound (now : String) (tc : TaskContext)
    (msgs : List (Option String)) (bmsgs : List String) (hwf : well_formed tc) :
    (∀ c, (run_streaming now tc msgs).task_context = some c →
        c.iteration ≤ c.max_iterations)
    ∧ (∀ c, (run_batch now tc bmsgs).task_context = some c →
        c.iteration ≤ c.max_iterations) := by
  constructor
  · intro c hc
    have hc' : some (run_streaming_aux now [] msgs ⟨tc, false, none⟩).ctx = some c := hc
    obtain ⟨h1, h2, _⟩ := run_streaming_aux_counters now msgs [] ⟨tc, false, none⟩
    have hceq := Option.some.inj hc'
    subst hceq
    rw [h1, h2]
    exact hwf
  · intro c hc
    have hceq : tc = c := Option.some.inj hc
    subst hceq
    exact hwf

/-- C5 (witness): a default context (iteration 0, bound 5) run over one
planning message keeps the bound in the final snapshot. -/
theorem c5_witness :
    well_formed { task_id := "t5", bug_report := "b5" }
    ∧ ∃ c, (run_streaming "ts" { task_id := "t5", bug_report := "b5" }
          [some "PLAN:\n- a"]).task_context = some c
        ∧ c.iteration ≤ c.max_iterations := by
  refine ⟨by simp [well_formed],
    ⟨{ task_id := "t5", bug_report := "b5", plan := some ["a"] }, by decide, ?_⟩⟩
  exact (c5_iteration_bound "ts" { task_id := "t5", bug_report := "b5" }
      [some "PLAN:\n- a"] [] (by simp [well_formed])).1
    { task_id := "t5", bug_report := "b5", plan := some ["a"] } (by decide)

/-- C6 (counterexample): with the critic and reviewer toggles both off,
`_create_team` still assembles a team — participants Planner, Locator, Coder,
Executor, wired with the max-rounds termination — even though the executor's
declared hand-offs (`Critic`, `Reviewer`) name roles absent from the team
(`handoff_closed` is false).  Assembly does not fail fast; there is no
configuration-error path at all. -/
theorem c6_counterexample :
    team_names (create_team { enable_critic := false, enable_reviewer := false }
        (create_all_agents { enable_critic := false, enable_reviewer := false }) none)
      = ["Planner", "Locator", "Coder", "Executor"]
    ∧ handoff_closed (create_team { enable_critic := false, enable_reviewer := false }
        (create_all_agents { enable_critic := false, enable_reviewer := false }) none)
      = false
    ∧ (create_team { enable_critic := false, enable_reviewer := false }
        (create_all_agents { enable_critic := false, enable_reviewer := false }) none).max_messages
      = 20 := by
  decide

/-- C6 (amended): team assembly never validates hand-off targets: for every
configuration it returns an assembled team whose participants are Planner,
Locator, Coder, Executor plus Critic/Reviewer per their toggles, carrying the
configured max-rounds bound; and whenever both toggles are off, the assembled
team's hand-off graph is not closed (the executor still targets the absent
Critic and Reviewer) — the undeclared hand-off is deferred to run time, not
rejected at assembly. -/
theorem c6_amended (cfg : TeamConfig) (mode_arg : Option String) :
    team_names (create_team cfg (create_all_agents cfg) mode_arg)
      = ["Planner", "Locator", "Coder", "Executor"]
        ++ (if cfg.enable_critic then ["Critic"] else [])
        ++ (if cfg.enable_reviewer then ["Reviewer"] else [])
    ∧ (create_team cfg (create_all_agents cfg) mode_arg).max_messages = cfg.max_rounds
    ∧ handoff_closed
        (create_team { cfg with enable_critic := false, enable_reviewer := false }
          (create_all_agents { cfg with enable_critic := false, enable_reviewer := false })
          mode_arg) = false := by
  obtain ⟨mr, ec, er, cm⟩ := cfg
  refine ⟨?_, rfl, rfl⟩
  cases ec <;> cases er <;> rfl

/-- C7 (counterexample): on `"PLAN:\n4. step four"` the code collects nothing
(`4.` is not among the accepted item markers `-`, `*`, `1.`, `2.`, `3.`, and
the line stops the collection), while the claim's reading — any numeric-dot
prefix is a list item — collects `["step four"]`. -/
theorem c7_counterexample :
    extract_plan "PLAN:\n4. step four" = []
    ∧ claim_extract_plan "PLAN:\n4. step four" = ["step four"] := by
  decide

/-- C7 (amended): for every message content, plan extraction scans for the
first line containing `PLAN:` and then collects, in order, each subsequent
non-blank line whose stripped form begins with `-`, `*`, `1.`, `2.` or `3.`,
stripped of all leading characters among `-*123456789. `; lines containing
`PLAN:` and blank lines are skipped, any other line beginning with a space is
skipped, and any other line stops the collection. -/
theorem c7_amended :
    ∀ content : String, extract_plan content = spec_extract_plan content := by
  intro content
  unfold extract_plan spec_extract_plan
  rw [extract_plan_aux_false]

/-- C8: when the external top-k query honours its bound (at most
`max_results` raw rows), every formatted search result has similarity at
least the threshold, the result list length is at most `max_results`, and the
composed initial prompt depends only on the first three returned results. -/
theorem c8_search_contract (threshold : Rat) (raw : List RawHit) (max_results : Nat)
    (hlen : raw.length ≤ max_results) :
    (∀ res ∈ (memory_search_run threshold (Except.ok raw)).results,
        threshold ≤ res.similarity)
    ∧ (memory_search_run threshold (Except.ok raw)).results.length ≤ max_results
    ∧ ∀ (fmt_sim : Rat → String) (json_dumps : String → String) (bug : String)
        (tc : TaskContext) (l : List Hit),
        prepare_initial_message fmt_sim json_dumps bug tc (some l)
          = prepare_initial_message fmt_sim json_dumps bug tc (some (l.take 3)) := by
  refine ⟨?_, ?_, fun f j bug tc l => prepare_take3 f j bug tc l⟩
  · intro res hmem
    simp only [memory_search_run, List.mem_filterMap] at hmem
    obtain ⟨a, _, ha⟩ := hmem
    by_cases hth : threshold ≤ 1 - a.distance
    · rw [if_pos hth] at ha
      have := Option.some.inj ha
      subst this
      exact hth
    · rw [if_neg hth] at ha
      exact absurd ha (by simp)
  · have hle : (memory_search_run threshold (Except.ok raw)).results.length ≤ raw.length :=
      List.length_filterMap_le _ raw
    exact hle.trans hlen

/-- C8 (witness): on a two-row raw answer with distances 1/10 and 9/10 under
threshold 7/10 and cap 5, the surviving result has similarity 9/10 ≥ 7/10,
the result list is within the cap, and a four-hit prompt equals its
three-hit truncation. -/
theorem c8_witness :
    ((7 : Rat)/10 ≤ (⟨"id1", "doc1", some "md1", (9 : Rat)/10⟩ : Hit).similarity)
    ∧ (memory_search_run ((7 : Rat)/10)
        (Except.ok ([⟨"id1", "doc1", "md1", (1 : Rat)/10⟩,
          ⟨"id2", "doc2", "md2", (9 : Rat)/10⟩] : List RawHit))).results.length ≤ 5
    ∧ prepare_initial_message (fun _ => "s") (fun s => s) "bug"
        { task_id := "t8", bug_report := "bug" }
        (some [⟨"a", "c1", none, 1⟩, ⟨"b", "c2", none, 1⟩,
          ⟨"d", "c3", none, 1⟩, ⟨"e", "c4", none, 1⟩])
      = prepare_initial_message (fun _ => "s") (fun s => s) "bug"
        { task_id := "t8", bug_report := "bug" }
        (some (([⟨"a", "c1", none, 1⟩, ⟨"b", "c2", none, 1⟩,
          ⟨"d", "c3", none, 1⟩, ⟨"e", "c4", none, 1⟩] : List Hit).take 3)) := by
  refine ⟨?_, ?_, ?_⟩
  · refine (c8_search_contract ((7 : Rat)/10)
      [⟨"id1", "doc1", "md1", (1 : Rat)/10⟩, ⟨"id2", "doc2", "md2", (9 : Rat)/10⟩]
      5 (by decide)).1 ⟨"id1", "doc1", some "md1", (9 : Rat)/10⟩ ?_
    simp only [memory_search_run, List.filterMap_cons, List.filterMap_nil]
    norm_num
  · exact (c8_search_contract ((7 : Rat)/10)
      [⟨"id1", "doc1", "md1", (1 : Rat)/10⟩, ⟨"id2", "doc2", "md2", (9 : Rat)/10⟩]
      5 (by decide)).2.1
  · exact (c8_search_contract ((7 : Rat)/10)
      [⟨"id1", "doc1", "md1", (1 : Rat)/10⟩, ⟨"id2", "doc2", "md2", (9 : Rat)/10⟩]
      5 (by decide)).2.2 (fun _ => "s") (fun s => s) "bug"
      { task_id := "t8", bug_report := "bug" }
      [⟨"a", "c1", none, 1⟩, ⟨"b", "c2", none, 1⟩, ⟨"d", "c3", none, 1⟩, ⟨"e", "c4", none, 1⟩]

/-- C9: with no similar past cases, the composed initial message is exactly
the fixed header, the literal bug report, the fixed task-id header, the task
id and the fixed instructions — so it contains the literal bug report text —
and, provided neither the bug report nor the task id itself embeds the
header text, it contains no `Similar Past Solutions` section. -/
theorem c9_no_memory_section (fmt_sim : Rat → String) (json_dumps : String → String)
    (bug : String) (tc : TaskContext)
    (hbug : containsSub bug sim_header = false)
    (htid : containsSub tc.task_id sim_header = false) :
    prepare_initial_message fmt_sim json_dumps bug tc none
      = msg_a ++ bug ++ msg_b ++ tc.task_id ++ msg_c
    ∧ containsSub (prepare_initial_message fmt_sim json_dumps bug tc none) bug = true
    ∧ containsSub (prepare_initial_message fmt_sim json_dumps bug tc none) sim_header
      = false := by
  have heq := prepare_none_eq fmt_sim json_dumps bug tc
  refine ⟨heq, ?_, ?_⟩
  · rw [heq, containsSub_iff]
    refine ⟨msg_a.toList, (msg_b ++ tc.task_id ++ msg_c).toList, ?_⟩
    simp [toList_append, List.append_assoc]
  · rw [heq, containsSub_false_iff]
    have hb : ¬ sim_header.toList <:+: bug.toList := (containsSub_false_iff _ _).mp hbug
    have ht : ¬ sim_header.toList <:+: tc.task_id.toList :=
      (containsSub_false_iff _ _).mp htid
    intro hcon
    apply no_header_in_composed hb ht
    have hshape : (msg_a ++ bug ++ msg_b ++ tc.task_id ++ msg_c).toList
        = msg_a.toList ++ (bug.toList
            ++ (msg_b.toList ++ (tc.task_id.toList ++ msg_c.toList))) := by
      simp [toList_append, List.append_assoc]
    rwa [hshape] at hcon

/-- C9 (witness): the spec's scenario bug report, with a concrete task id,
yields a message containing the bug report and no similar-solutions header. -/
theorem c9_witness :
    containsSub "TypeError: unsupported operand type(s) for +: int and str"
      sim_header = false
    ∧ containsSub "task-9" sim_header = false
    ∧ containsSub (prepare_initial_message (fun _ => "s") (fun s => s)
        "TypeError: unsupported operand type(s) for +: int and str"
        { task_id := "task-9",
          bug_report := "TypeError: unsupported operand type(s) for +: int and str" }
        none)
      "TypeError: unsupported operand type(s) for +: int and str" = true
    ∧ containsSub (prepare_initial_message (fun _ => "s") (fun s => s)
        "TypeError: unsupported operand type(s) for +: int and str"
        { task_id := "task-9",
          bug_report := "TypeError: unsupported operand type(s) for +: int and str" }
        none)
      sim_header = false := by
  refine ⟨by decide, by decide, ?_, ?_⟩
  · exact (c9_no_memory_section (fun _ => "s") (fun s => s)
      "TypeError: unsupported operand type(s) for +: int and str"
      { task_id := "task-9",
        bug_report := "TypeError: unsupported operand type(s) for +: int and str" }
      (by decide) (by decide)).2.1
  · exact (c9_no_memory_section (fun _ => "s") (fun s => s)
      "TypeError: unsupported operand type(s) for +: int and str"
      { task_id := "task-9",
        bug_report := "TypeError: unsupported operand type(s) for +: int and str" }
      (by decide) (by decide)).2.2

/-- C10: the caller-supplied context overwrites every `TaskContext` field it
names: with no context dict the created context is exactly the fresh id, the
bug report and the configured bound; with a context dict, each of the nine
fields ends at its last assigned value, falling back to the generated id /
bug report / `0` / configured bound only when that key is absent. -/
theorem c10_context_overrides (fresh_id : String) (max_rounds : Int) (bug : String)
    (l : List CtxAssign) :
    create_task_context fresh_id max_rounds bug none
      = { task_id := fresh_id, bug_report := bug, max_iterations := max_rounds }
    ∧ (create_task_context fresh_id max_rounds bug (some l)).task_id
        = (last_assign assign_task_id l).getD fresh_id
    ∧ (create_task_context fresh_id max_rounds bug (some l)).bug_report
        = (last_assign assign_bug_report l).getD bug
    ∧ (create_task_context fresh_id max_rounds bug (some l)).plan
        = (last_assign assign_plan l).getD none
    ∧ (create_task_context fresh_id max_rounds bug (some l)).located_files
        = (last_assign assign_located_files l).getD none
    ∧ (create_task_context fresh_id max_rounds bug (some l)).proposed_patches
        = (last_assign assign_proposed_patches l).getD none
    ∧ (create_task_context fresh_id max_rounds bug (some l)).test_results
        = (last_assign assign_test_results l).getD none
    ∧ (create_task_context fresh_id max_rounds bug (some l)).critique
        = (last_assign assign_critique l).getD none
    ∧ (create_task_context fresh_id max_rounds bug (some l)).iteration
        = (last_assign assign_iteration l).getD 0
    ∧ (create_task_context fresh_id max_rounds bug (some l)).max_iterations
        = (last_assign assign_max_iterations l).getD max_rounds :=
  ⟨rfl, foldl_task_id l _, foldl_bug_report l _, foldl_plan l _,
   foldl_located_files l _, foldl_proposed_patches l _, foldl_test_results l _,
   foldl_critique l _, foldl_iteration l _, foldl_max_iterations l _⟩

end AutoDebug
